import Mathlib

/-!
Shallow embedding of the W5500 Ethernet-controller driver
(src/W5500.h, src/W5500.cpp) and its SPI framing layer
(src/SpiFrame.h, src/SpiFrame.cpp).

The hardware device sits behind the SPI bus, so its responses are inputs of
the model: an `Env` supplies the PHY-configuration byte, the outcome of each
blocking status poll (`SpiFrame::wait_for_value` succeeds or times out, which
depends on real time and on the network), the status a socket lands in after a
status-affecting command, the successive values returned by the volatile
16-bit byte-count registers, and the contents of the device RX buffer memory.
The driver-visible device state (`MState`) holds the per-socket raw status
register, the per-socket byte-addressed register file (for registers that only
the driver itself writes, such as the buffer pointers), the cursors into the
`Env` oracle streams, and a trace of every bus-level effect the driver
performs (register reads and writes, socket commands, polls, buffer
transfers).  Where the device's own reaction to a command is needed
(claim C2's convergence-to-Closed), it is modelled from the spec's register
map: the CLOSE command (0x10) forces the raw status register to 0x00, and a
poll that reports success has just observed the polled-for status value.
Every other command leaves the resulting status to the environment.
-/

namespace SpiFrame

/-- Block-select values of the SPI frame control phase (SpiFrame.h). -/
inductive BlockSelect where
  | CommonReg
  | SocketReg
  | TxBuffer
  | RxBuffer
  deriving DecidableEq

/-- Numeric value of a block selector (SpiFrame.h, enum BlockSelect). -/
def BlockSelect.val : BlockSelect → Nat
  | .CommonReg => 0
  | .SocketReg => 1
  | .TxBuffer => 2
  | .RxBuffer => 3

/-- Read/write direction flag of an SPI frame (SpiFrame.h). -/
inductive ReadWrite where
  | Read
  | Write
  deriving DecidableEq

/-- Numeric value of the direction flag (SpiFrame.h, enum ReadWrite). -/
def ReadWrite.val : ReadWrite → Nat
  | .Read => 0
  | .Write => 1

/-- Frame descriptor (SpiFrame.h, struct Frame). -/
structure Frame where
  offset_addr : Nat
  socket_n : Nat
  bsb : BlockSelect
  rw : ReadWrite

/-- The SPI bus: `dev i` is the byte the device shifts back on the i-th byte
exchange, `idx` counts exchanged bytes, and `mosi` records every byte the
driver has shifted out so far. -/
structure Bus where
  dev : Nat → Nat
  idx : Nat
  mosi : List Nat

/-- One full-duplex byte exchange (`SPI.transfer(uint8_t)`): the driver shifts
out one byte (truncated to 8 bits) and simultaneously receives one byte from
the device. -/
def xferByte (b : Nat) (bus : Bus) : Nat × Bus :=
  (bus.dev bus.idx % 256,
   { bus with idx := bus.idx + 1, mosi := bus.mosi ++ [b % 256] })

/-- 16-bit exchange (`SPI.transfer16`), MSB first: high byte then low byte. -/
def xfer16 (v : Nat) (bus : Bus) : Bus :=
  (xferByte (v % 256) ((xferByte ((v % 65536) >>> 8) bus).2)).2

/-- Buffer exchange (`SPI.transfer(buf, len)`): each byte of the buffer is
shifted out and replaced in place by the byte the device returns. -/
def xferBuf (data : List Nat) (bus : Bus) : List Nat × Bus :=
  match data with
  | [] => ([], bus)
  | b :: rest =>
    let r := xferByte b bus
    let rs := xferBuf rest r.2
    (r.1 :: rs.1, rs.2)

/-- SpiFrame::transfer (SpiFrame.cpp): 16-bit offset address, then the packed
control byte, then the data phase.  Returns the bytes the device sent back
during the data phase (the new contents of the caller's buffer) and the bus
after the exchange. -/
def transfer (f : Frame) (data : List Nat) (bus : Bus) : List Nat × Bus :=
  let b1 := xfer16 f.offset_addr bus
  let b2 := (xferByte ((f.socket_n <<< 2 ||| f.bsb.val) <<< 3 ||| f.rw.val <<< 2) b1).2
  xferBuf data b2

end SpiFrame

namespace W5500

/-- Raw socket status code SOCK_CLOSED (W5500.h, enum SocketStatusReg). -/
def SOCK_CLOSED : Nat := 0x00

/-- Raw socket status code SOCK_INIT. -/
def SOCK_INIT : Nat := 0x13

/-- Raw socket status code SOCK_LISTEN. -/
def SOCK_LISTEN : Nat := 0x14

/-- Raw socket status code SOCK_ESTABLISHED. -/
def SOCK_ESTABLISHED : Nat := 0x17

/-- Raw socket status code SOCK_CLOSE_WAIT. -/
def SOCK_CLOSE_WAIT : Nat := 0x1C

/-- Raw socket status code SOCK_UDP. -/
def SOCK_UDP : Nat := 0x22

/-- Socket command code OPEN (W5500.h, enum SocketCommandReg). -/
def OPEN : Nat := 0x01

/-- Socket command code LISTEN. -/
def LISTEN : Nat := 0x02

/-- Socket command code CONNECT. -/
def CONNECT : Nat := 0x04

/-- Socket command code DISCONNECT. -/
def DISCONNECT : Nat := 0x08

/-- Socket command code CLOSE. -/
def CLOSE : Nat := 0x10

/-- Socket command code SEND. -/
def SEND : Nat := 0x20

/-- Socket command code RECV. -/
def RECV : Nat := 0x40

/-- Socket register offset of the socket mode register (W5500.h). -/
def socket_mode_register : Nat := 0x00

/-- Socket register offset of the command register. -/
def command_register : Nat := 0x01

/-- Socket register offset of the status register. -/
def status_register : Nat := 0x03

/-- Socket register offset of the TX free-size counter. -/
def tx_free_size : Nat := 0x20

/-- Socket register offset of the TX write pointer. -/
def tx_write_pointer : Nat := 0x24

/-- Socket register offset of the RX received-size counter. -/
def rx_received_size : Nat := 0x26

/-- Socket register offset of the RX read pointer. -/
def rx_read_pointer : Nat := 0x28

/-- Common register offset of the PHY configuration register. -/
def phy_config : Nat := 0x2E

/-- Base value of the socket mode register (W5500.h,
socket_mode_register_default = 0x40). -/
def socket_mode_register_default : Nat := 0x40

/-- External socket mode (W5500.h, enum SocketMode). -/
inductive SocketMode where
  | TCP_Server
  | TCP_Client
  | UDP
  deriving DecidableEq

/-- External socket status (W5500.h, enum SocketStatus). -/
inductive SocketStatus where
  | Closed
  | UDP_Open
  | TCP_Listen
  | TCP_Connected
  | Temporary
  deriving DecidableEq

/-- One observable bus-level effect of the driver.  `cmd sock c` is the
single-byte write of `c` to the socket's command register, kept as its own
constructor so that claims about issued commands are directly readable;
`poll` is one call of the blocking wait primitive `waitSocketStatus`
(SpiFrame::wait_for_value); `bufRead`/`bufWrite` are the data phases of
buffer-block SPI frames. -/
inductive Event where
  | readCommon (offset value : Nat)
  | readStatus (sock value : Nat)
  | writeReg (sock offset value : Nat)
  | cmd (sock c : Nat)
  | poll (sock target : Nat) (ok : Bool)
  | read16 (sock offset value : Nat)
  | write16 (sock offset value : Nat)
  | bufRead (sock addr n : Nat)
  | bufWrite (sock addr : Nat) (bytes : List Nat)
  deriving DecidableEq

/-- Environment: everything the hardware decides.  `phy` is the byte the PHY
configuration register reads as; `pollOk i` is whether the i-th blocking poll
sees its expected value before the timeout; `pollFail i` is the raw status the
socket is left in after the i-th poll when it timed out; `cmdEffect i` is the
raw status the socket reaches after the i-th status-affecting command (any
command other than CLOSE, whose effect is fixed); `reg16 i` is the value
returned by the i-th read of a volatile 16-bit byte-count register; `rx sock
addr` is the RX buffer byte of `sock` at ring address `addr`. -/
structure Env where
  phy : Nat
  pollOk : Nat → Bool
  pollFail : Nat → Nat
  cmdEffect : Nat → Nat
  reg16 : Nat → Nat
  rx : Nat → Nat → Nat

/-- Driver-visible device state plus the effect trace. -/
structure MState where
  status : Nat → Nat
  regs : Nat → Nat → Nat
  pollIdx : Nat
  cmdIdx : Nat
  r16Idx : Nat
  trace : List Event

/-- Append one effect to the trace. -/
def emit (e : Event) (s : MState) : MState :=
  { s with trace := s.trace ++ [e] }

/-- Overwrite the raw status register of one socket. -/
def setStatus (sock v : Nat) (s : MState) : MState :=
  { s with status := fun k => if k = sock then v else s.status k }

/-- rdCommonReg(phy_config): read the PHY configuration byte (W5500.cpp). -/
def rdPhyConfig (env : Env) (s : MState) : Nat × MState :=
  (env.phy % 256, emit (.readCommon phy_config (env.phy % 256)) s)

/-- socketStatusReg (W5500.cpp): read the socket's raw status register. -/
def socketStatusReg (sock : Nat) (s : MState) : Nat × MState :=
  (s.status sock, emit (.readStatus sock (s.status sock)) s)

/-- wrSocketReg (W5500.cpp): single-byte socket register write. -/
def wrSocketReg (sock off v : Nat) (s : MState) : MState :=
  emit (.writeReg sock off (v % 256))
    { s with regs := fun k a => if k = sock ∧ a = off then v % 256 else s.regs k a }

/-- socketCommand (W5500.cpp): write a command code to the socket command
register.  The device-side effect on the raw status is modelled from the
spec's register map: CLOSE (0x10) forces the raw status to SOCK_CLOSED;
every other command moves the socket to an environment-chosen status. -/
def socketCommand (env : Env) (sock c : Nat) (s : MState) : MState :=
  let s1 := emit (.cmd sock c) s
  if c = CLOSE then setStatus sock SOCK_CLOSED s1
  else setStatus sock (env.cmdEffect s.cmdIdx) { s1 with cmdIdx := s.cmdIdx + 1 }

/-- waitSocketStatus (W5500.cpp): the blocking poll of the status register via
SpiFrame::wait_for_value.  Whether the expected status appears within the
timeout is environment-chosen; on success the raw status is the polled-for
value (that is what the poll observed), on timeout it is an
environment-chosen value. -/
def waitSocketStatus (env : Env) (sock target : Nat) (s : MState) : Bool × MState :=
  let ok := env.pollOk s.pollIdx
  let s1 := if ok then setStatus sock target s else setStatus sock (env.pollFail s.pollIdx) s
  (ok, emit (.poll sock target ok) { s1 with pollIdx := s.pollIdx + 1 })

/-- Value of a 16-bit big-endian socket register assembled from the two bytes
of the register file, as rdSocketReg16 (W5500.cpp) assembles it:
`(data[0] << 8) | data[1]`. -/
def rd16val (s : MState) (sock off : Nat) : Nat :=
  ((s.regs sock off % 256) <<< 8) ||| (s.regs sock (off + 1) % 256)

/-- rdSocketReg16 (W5500.cpp): plain (non-atomic) 16-bit register read. -/
def rdSocketReg16 (sock off : Nat) (s : MState) : Nat × MState :=
  (rd16val s sock off, emit (.read16 sock off (rd16val s sock off)) s)

/-- wrSocketReg16 (W5500.cpp): 16-bit register write; the value is a
`uint16_t` at the call boundary (mod 2^16) and is stored as the byte pair
`{data >> 8, data & 0xFF}`. -/
def wrSocketReg16 (sock off v : Nat) (s : MState) : MState :=
  emit (.write16 sock off (v % 65536))
    { s with regs := fun k a =>
        if k = sock ∧ a = off then (v % 65536) >>> 8
        else if k = sock ∧ a = off + 1 then v % 256
        else s.regs k a }

/-- Loop body of rdSocketReg16_atomic (W5500.cpp), traced variant: up to
`fuel` further reads of a volatile 16-bit counter, taken from the `reg16`
oracle stream; from the second attempt on (`1 ≤ tries`) the value is returned
as soon as it repeats the immediately preceding read. -/
def atomicGoT (env : Env) (sock off : Nat) (fuel tries last : Nat) (s : MState) :
    Nat × MState :=
  match fuel with
  | 0 => (0, s)
  | f + 1 =>
    let value := env.reg16 s.r16Idx % 65536
    let s1 := emit (.read16 sock off value) { s with r16Idx := s.r16Idx + 1 }
    if 1 ≤ tries ∧ value = last then (value, s1)
    else atomicGoT env sock off f (tries + 1) value s1

/-- rdSocketReg16_atomic (W5500.cpp), traced variant: max_tries = 20. -/
def rdSocketReg16_atomicT (env : Env) (sock off : Nat) (s : MState) : Nat × MState :=
  atomicGoT env sock off 20 0 0 s

/-- Loop body of rdSocketReg16_atomic (W5500.cpp) as a pure function of the
read sequence: `read i` is the value the i-th 16-bit read returns (truncated
to 16 bits, as rdSocketReg16 returns a `uint16_t`). -/
def atomicGo (read : Nat → Nat) (fuel tries last : Nat) : Nat :=
  match fuel with
  | 0 => 0
  | f + 1 =>
    if 1 ≤ tries ∧ read tries % 65536 = last then read tries % 65536
    else atomicGo read f (tries + 1) (read tries % 65536)

/-- rdSocketReg16_atomic (W5500.cpp) as a pure function of the read sequence:
max_tries = 20, last_value initialised to 0 (never compared on try 0). -/
def rdSocketReg16_atomic (read : Nat → Nat) : Nat :=
  atomicGo read 20 0 0

/-- socketClose (W5500.cpp): already closed is a no-op; an established or
half-closed TCP connection gets DISCONNECT and a poll for SOCK_CLOSED, and
only a successful poll returns early; every other path, including a
DISCONNECT whose poll timed out, issues the unconditional CLOSE. -/
def socketClose (env : Env) (sock : Nat) (s : MState) : MState :=
  let r := socketStatusReg sock s
  if r.1 = SOCK_CLOSED then r.2
  else if r.1 = SOCK_ESTABLISHED ∨ r.1 = SOCK_CLOSE_WAIT then
    let s2 := socketCommand env sock DISCONNECT r.2
    let w := waitSocketStatus env sock SOCK_CLOSED s2
    if w.1 then w.2 else socketCommand env sock CLOSE w.2
  else socketCommand env sock CLOSE r.2

/-- Mode register value of socketOpen (W5500.cpp): the default flags with the
TCP bit (0x01) or the UDP bit (0x02) set. -/
def modeValue : SocketMode → Nat
  | .TCP_Server => socket_mode_register_default ||| 0x01
  | .TCP_Client => socket_mode_register_default ||| 0x01
  | .UDP => socket_mode_register_default ||| 0x02

/-- socketOpen (W5500.cpp): fail immediately if PHY bit 0 reads 0; otherwise
force-close, write the mode register, issue OPEN, then poll for the
mode-appropriate terminal status (with LISTEN/CONNECT in between for TCP);
any poll timeout closes the socket and fails. -/
def socketOpen (env : Env) (sock : Nat) (mode : SocketMode) (s : MState) :
    Bool × MState :=
  let p := rdPhyConfig env s
  if p.1 % 2 = 0 then (false, p.2)
  else
    let s1 := socketClose env sock p.2
    let s2 := wrSocketReg sock socket_mode_register (modeValue mode) s1
    let s3 := socketCommand env sock OPEN s2
    match mode with
    | .UDP =>
      let w := waitSocketStatus env sock SOCK_UDP s3
      if w.1 then (true, w.2) else (false, socketClose env sock w.2)
    | .TCP_Server =>
      let w := waitSocketStatus env sock SOCK_INIT s3
      if w.1 then
        let s4 := socketCommand env sock LISTEN w.2
        let w2 := waitSocketStatus env sock SOCK_LISTEN s4
        if w2.1 then (true, w2.2) else (false, socketClose env sock w2.2)
      else (false, socketClose env sock w.2)
    | .TCP_Client =>
      let w := waitSocketStatus env sock SOCK_INIT s3
      if w.1 then
        let s4 := socketCommand env sock CONNECT w.2
        let w2 := waitSocketStatus env sock SOCK_ESTABLISHED s4
        if w2.1 then (true, w2.2) else (false, socketClose env sock w2.2)
      else (false, socketClose env sock w.2)

/-- socketKeepOpen (W5500.cpp): re-open on Closed or Init, leave Listening,
Established and UDP alone, fire one DISCONNECT on CloseWait, leave any other
(transitional) status alone. -/
def socketKeepOpen (env : Env) (sock : Nat) (mode : SocketMode) (s : MState) :
    MState :=
  let r := socketStatusReg sock s
  if r.1 = SOCK_CLOSED ∨ r.1 = SOCK_INIT then (socketOpen env sock mode r.2).2
  else if r.1 = SOCK_LISTEN ∨ r.1 = SOCK_ESTABLISHED then r.2
  else if r.1 = SOCK_CLOSE_WAIT then socketCommand env sock DISCONNECT r.2
  else r.2

/-- socketStatus (W5500.cpp): map the raw status byte to the external enum,
force-closing an abandoned Init and kicking a CloseWait with DISCONNECT. -/
def socketStatus (env : Env) (sock : Nat) (s : MState) : SocketStatus × MState :=
  let r := socketStatusReg sock s
  if r.1 = SOCK_CLOSED then (.Closed, r.2)
  else if r.1 = SOCK_INIT then (.Closed, socketCommand env sock CLOSE r.2)
  else if r.1 = SOCK_LISTEN then (.TCP_Listen, r.2)
  else if r.1 = SOCK_ESTABLISHED then (.TCP_Connected, r.2)
  else if r.1 = SOCK_CLOSE_WAIT then (.Closed, socketCommand env sock DISCONNECT r.2)
  else if r.1 = SOCK_UDP then (.UDP_Open, r.2)
  else (.Temporary, r.2)

/-- socketConnected (W5500.cpp): true iff socketStatus yields TCP_Connected
or UDP_Open. -/
def socketConnected (env : Env) (sock : Nat) (s : MState) : Bool × MState :=
  let r := socketStatus env sock s
  match r.1 with
  | .TCP_Connected => (true, r.2)
  | .UDP_Open => (true, r.2)
  | _ => (false, r.2)

/-- sendAvailable (W5500.cpp): the TX free-size counter via the atomic 16-bit
read when connected, 0 otherwise. -/
def sendAvailable (env : Env) (sock : Nat) (s : MState) : Nat × MState :=
  let c := socketConnected env sock s
  if c.1 then rdSocketReg16_atomicT env sock tx_free_size c.2 else (0, c.2)

/-- receiveAvailable (W5500.cpp): the RX received-size counter via the atomic
16-bit read when connected, 0 otherwise. -/
def receiveAvailable (env : Env) (sock : Nat) (s : MState) : Nat × MState :=
  let c := socketConnected env sock s
  if c.1 then rdSocketReg16_atomicT env sock rx_received_size c.2 else (0, c.2)

/-- send (W5500.cpp): clamp the length to send-availability; 0 is a no-op;
otherwise write the bytes at the TX write pointer, advance the pointer by the
clamped length (wrapping 16-bit write-back), and issue SEND. -/
def send (env : Env) (sock : Nat) (data : List Nat) (len : Nat) (s : MState) :
    Nat × MState :=
  let av := sendAvailable env sock s
  let len1 := min len av.1
  if len1 = 0 then (0, av.2)
  else
    let r := rdSocketReg16 sock tx_write_pointer av.2
    let s2 := emit (.bufWrite sock r.1 (List.take len1 data)) r.2
    let s3 := wrSocketReg16 sock tx_write_pointer (r.1 + len1) s2
    let s4 := socketCommand env sock SEND s3
    (len1, s4)

/-- Bytes the RX-buffer data phase of an SPI read frame delivers: `n` bytes
of socket `sock` starting at ring address `addr` (the device wraps the 16-bit
address). -/
def readRxBytes (env : Env) (sock addr n : Nat) : List Nat :=
  (List.range n).map (fun i => env.rx sock ((addr + i) % 65536) % 256)

/-- receive (W5500.cpp): clamp the length to receive-availability; 0 is a
no-op; with header stripping, a clamped length below 8 returns 0 consuming
nothing, otherwise the 8-byte UDP header is read, the length re-clamped to
`min(len - 8, declared payload length)`, the payload read past the header,
the read pointer advanced by header plus payload (wrapping write-back), and
RECV issued. -/
def receive (env : Env) (sock : Nat) (len : Nat) (udpIgnoreHeader : Bool)
    (s : MState) : Nat × MState :=
  let av := receiveAvailable env sock s
  let len1 := min len av.1
  if len1 = 0 then (0, av.2)
  else
    let r := rdSocketReg16 sock rx_read_pointer av.2
    if udpIgnoreHeader then
      if len1 < 8 then (0, r.2)
      else
        let hdr := readRxBytes env sock r.1 8
        let s2 := emit (.bufRead sock r.1 8) r.2
        let len2 := min (len1 - 8) ((hdr.getD 6 0) <<< 8 ||| hdr.getD 7 0)
        let rp2 := (r.1 + 8) % 65536
        let s3 := emit (.bufRead sock rp2 len2) s2
        let s4 := wrSocketReg16 sock rx_read_pointer (rp2 + len2) s3
        let s5 := socketCommand env sock RECV s4
        (len2, s5)
    else
      let s2 := emit (.bufRead sock r.1 len1) r.2
      let s3 := wrSocketReg16 sock rx_read_pointer (r.1 + len1) s2
      let s4 := socketCommand env sock RECV s3
      (len1, s4)

/-- Mode-appropriate terminal status socketOpen polls for last (W5500.cpp,
`expected_state`: SOCK_LISTEN for TCP_Server, SOCK_ESTABLISHED for
TCP_Client; the UDP branch polls for SOCK_UDP directly). -/
def expectedState : SocketMode → Nat
  | .TCP_Server => SOCK_LISTEN
  | .TCP_Client => SOCK_ESTABLISHED
  | .UDP => SOCK_UDP

/-- Poll-counter position of the first open-flow poll inside socketOpen: the
preliminary socketClose consumes one poll outcome exactly when the socket was
Established or CloseWait. -/
def firstOpenPoll (sock : Nat) (s : MState) : Nat :=
  s.pollIdx +
    (if s.status sock = SOCK_ESTABLISHED ∨ s.status sock = SOCK_CLOSE_WAIT
     then 1 else 0)

/-- Concrete environment for witnesses and counterexamples: link up, every
poll succeeds, all oracle streams zero. -/
def envUp : Env :=
  ⟨1, fun _ => true, fun _ => 0, fun _ => 0, fun _ => 0, fun _ _ => 0⟩

/-- Concrete environment for witnesses: link up, every poll succeeds, every
volatile 16-bit counter read returns 100, RX buffer bytes all 5. -/
def envAvail : Env :=
  ⟨1, fun _ => true, fun _ => 0, fun _ => 0x17, fun _ => 100, fun _ _ => 5⟩

/-- Concrete initial state for witnesses and counterexamples: every socket
Closed, every register zero, empty trace. -/
def stZero : MState := ⟨fun _ => 0, fun _ _ => 0, 0, 0, 0, []⟩

/-- Concrete state for witnesses: every socket Established, the TX write
pointer and RX read pointer of socket 0 hold 0xFFF8, empty trace. -/
def stEstab : MState :=
  ⟨fun _ => 0x17,
   fun _ a => if a = tx_write_pointer ∨ a = rx_read_pointer then 0xFF
              else if a = tx_write_pointer + 1 ∨ a = rx_read_pointer + 1 then 0xF8
              else 0,
   0, 0, 0, []⟩

end W5500

namespace SpiFrame

/-- Helper: a buffer exchange does not change the device response function. -/
theorem xferBuf_dev (data : List Nat) (bus : Bus) :
    (xferBuf data bus).2.dev = bus.dev := by
  induction data generalizing bus with
  | nil => rfl
  | cons b rest ih => simp [xferBuf, xferByte, ih]

/-- Helper: a buffer exchange advances the byte counter by the buffer length. -/
theorem xferBuf_idx (data : List Nat) (bus : Bus) :
    (xferBuf data bus).2.idx = bus.idx + data.length := by
  induction data generalizing bus with
  | nil => simp [xferBuf]
  | cons b rest ih =>
    simp [xferBuf, xferByte, ih]
    omega

/-- Helper: a buffer exchange shifts out exactly the buffer's bytes,
truncated to 8 bits, in order. -/
theorem xferBuf_mosi (data : List Nat) (bus : Bus) :
    (xferBuf data bus).2.mosi = bus.mosi ++ data.map (· % 256) := by
  induction data generalizing bus with
  | nil => simp [xferBuf]
  | cons b rest ih => simp [xferBuf, xferByte, ih]

/-- Helper: a buffer exchange returns the device's next `data.length`
response bytes. -/
theorem xferBuf_fst (data : List Nat) (bus : Bus) :
    (xferBuf data bus).1 =
      (List.range data.length).map (fun i => bus.dev (bus.idx + i) % 256) := by
  induction data generalizing bus with
  | nil => simp [xferBuf]
  | cons b rest ih =>
    simp only [xferBuf, xferByte, ih, List.length_cons, List.range_succ_eq_map,
      List.map_cons, List.map_map]
    congr 1
    apply List.map_congr_left
    intro a _
    have h : bus.idx + 1 + a = bus.idx + (a + 1) := by omega
    simp [Function.comp, h]

end SpiFrame

namespace SpiFrame

/-- C8: for every frame descriptor, SpiFrame::transfer shifts out a 3-byte
header — the 16-bit offset address big-endian, then the control byte
`((socket_n << 2) | block_selector) << 3 | (direction << 2)` truncated to
8 bits — followed by exactly `data.length` data bytes taken from the caller's
buffer; it hands back exactly the bytes the device returned during the data
phase as the buffer's new contents; and the direction flag changes nothing
about how the local buffer is treated (the returned buffer contents are
identical for both directions). -/
theorem transfer_spec (f : Frame) (data : List Nat) (bus : Bus) :
    (transfer f data bus).2.mosi =
      bus.mosi ++
        ([(f.offset_addr % 65536) >>> 8, f.offset_addr % 256,
          ((f.socket_n <<< 2 ||| f.bsb.val) <<< 3 ||| f.rw.val <<< 2) % 256] ++
         data.map (· % 256)) ∧
    (transfer f data bus).1 =
      (List.range data.length).map (fun i => bus.dev (bus.idx + 3 + i) % 256) ∧
    (∀ r r' : ReadWrite,
      (transfer { f with rw := r } data bus).1 =
        (transfer { f with rw := r' } data bus).1) := by
  have hhi : (f.offset_addr % 65536) >>> 8 % 256 = (f.offset_addr % 65536) >>> 8 := by
    have h1 : (f.offset_addr % 65536) >>> 8 = f.offset_addr % 65536 / 2 ^ 8 :=
      Nat.shiftRight_eq_div_pow _ _
    omega
  have hlo : f.offset_addr % 256 % 256 = f.offset_addr % 256 := by omega
  refine ⟨?_, ?_, ?_⟩
  · simp only [transfer, xfer16, xferByte, xferBuf_mosi]
    simp [hhi, hlo]
  · simp only [transfer, xfer16, xferByte, xferBuf_fst]
  · intro r r'
    simp only [transfer, xfer16, xferByte, xferBuf_fst]

end SpiFrame

namespace W5500

/-- C10: writing any 16-bit value with wrSocketReg16 (big-endian byte pair
`{v >> 8, v & 0xFF}`) and reading the same socket register back with
rdSocketReg16 (decoding `(b0 << 8) | b1`) over the register file that returns
the bytes last written yields exactly the value written. -/
theorem wrSocketReg16_rdSocketReg16_roundtrip (s : MState) (sock off v : Nat)
    (h : v < 65536) :
    (rdSocketReg16 sock off (wrSocketReg16 sock off v s)).1 = v := by
  have hv : v % 65536 = v := Nat.mod_eq_of_lt h
  have hne : ¬(off + 1 = off) := by omega
  have hdiv : v >>> 8 = v / 256 := by
    simpa using Nat.shiftRight_eq_div_pow v 8
  simp only [rdSocketReg16, wrSocketReg16, rd16val, emit, hv]
  simp only [and_self, if_true, hne, and_false, if_false, and_true, ite_true,
    ite_false, if_pos, eq_self_iff_true]
  simp [hne, hdiv]
  have h1 : v / 256 % 256 = v / 256 := by omega
  rw [h1, Nat.shiftLeft_eq]
  have h3 := Nat.mul_add_lt_is_or (b := v % 256) (i := 8) (by omega) (v / 256)
  have h4 : v / 256 * 2 ^ 8 = 2 ^ 8 * (v / 256) := by ring
  rw [h4, ← h3]
  omega

/-- C10 witness: the round trip at a concrete value. -/
theorem wrSocketReg16_rdSocketReg16_roundtrip_witness :
    (rdSocketReg16 3 0x24 (wrSocketReg16 3 0x24 0xABCD
      ⟨fun _ => 0, fun _ _ => 0, 0, 0, 0, []⟩)).1 = 0xABCD :=
  wrSocketReg16_rdSocketReg16_roundtrip _ 3 0x24 0xABCD (by omega)

/-- Helper: the atomic-read loop depends only on the reads inside its
remaining attempt window. -/
theorem atomicGo_congr (read read' : Nat → Nat) (fuel : Nat) :
    ∀ tries last, (∀ i, tries ≤ i → i < tries + fuel → read i = read' i) →
      atomicGo read fuel tries last = atomicGo read' fuel tries last := by
  induction fuel with
  | zero => intro tries last _; rfl
  | succ f ih =>
    intro tries last h
    have hr : read tries = read' tries := h tries le_rfl (by omega)
    simp only [atomicGo, hr]
    split
    · rfl
    · exact ih (tries + 1) _ fun i h1 h2 => h i (by omega) (by omega)

/-- Helper: the atomic-read loop returns the first read that repeats its
immediate predecessor. -/
theorem atomicGo_find (read : Nat → Nat) (fuel : Nat) :
    ∀ tries i, 1 ≤ tries → tries ≤ i → i < tries + fuel →
      read i % 65536 = read (i - 1) % 65536 →
      (∀ j, tries ≤ j → j < i → read j % 65536 ≠ read (j - 1) % 65536) →
      atomicGo read fuel tries (read (tries - 1) % 65536) = read i % 65536 := by
  induction fuel with
  | zero => intro tries i _ h2 h3 _ _; omega
  | succ f ih =>
    intro tries i h1 h2 h3 hag hbef
    by_cases hti : tries = i
    · subst hti
      simp only [atomicGo]
      rw [if_pos ⟨h1, hag⟩]
    · have hlt : tries < i := by omega
      have hne : read tries % 65536 ≠ read (tries - 1) % 65536 := hbef tries le_rfl hlt
      simp only [atomicGo]
      rw [if_neg (by rintro ⟨_, hc⟩; exact hne hc)]
      have ht : tries + 1 - 1 = tries := by omega
      have hrec := ih (tries + 1) i (by omega) (by omega) (by omega) hag
        (fun j hj1 hj2 => hbef j (by omega) hj2)
      rw [ht] at hrec
      exact hrec

/-- Helper: the atomic-read loop returns 0 when no read in its window
repeats its immediate predecessor. -/
theorem atomicGo_none (read : Nat → Nat) (fuel : Nat) :
    ∀ tries, 1 ≤ tries →
      (∀ j, tries ≤ j → j < tries + fuel → read j % 65536 ≠ read (j - 1) % 65536) →
      atomicGo read fuel tries (read (tries - 1) % 65536) = 0 := by
  induction fuel with
  | zero => intro tries _ _; rfl
  | succ f ih =>
    intro tries h1 hb
    have hne := hb tries le_rfl (by omega)
    simp only [atomicGo]
    rw [if_neg (by rintro ⟨_, hc⟩; exact hne hc)]
    have ht : tries + 1 - 1 = tries := by omega
    have hrec := ih (tries + 1) (by omega) (fun j hj1 hj2 => hb j (by omega) (by omega))
    rw [ht] at hrec
    exact hrec

/-- Helper: the comparison is skipped on the very first attempt, so the
20-attempt loop is one read followed by a 19-attempt loop carrying that
read as the previous value. -/
theorem rdSocketReg16_atomic_step (read : Nat → Nat) :
    rdSocketReg16_atomic read = atomicGo read 19 1 (read 0 % 65536) := by
  simp [rdSocketReg16_atomic, atomicGo]

/-- C5: rdSocketReg16_atomic performs at most 20 reads (its result depends
only on the first 20 read values); from the second read on it returns the
current value as soon as it equals the immediately preceding read; if no two
consecutive reads agree within the 20-attempt budget it returns 0; on the
concrete 20-read sequence where reads 5 and 6 (1-indexed) agree and all
other consecutive pairs differ it returns the common value, and on the
sequence that never repeats consecutively it returns 0. -/
theorem rdSocketReg16_atomic_spec :
    (∀ read read' : Nat → Nat, (∀ i, i < 20 → read i = read' i) →
      rdSocketReg16_atomic read = rdSocketReg16_atomic read') ∧
    (∀ read : Nat → Nat, ∀ i, 1 ≤ i → i < 20 →
      read i % 65536 = read (i - 1) % 65536 →
      (∀ j, 1 ≤ j → j < i → read j % 65536 ≠ read (j - 1) % 65536) →
      rdSocketReg16_atomic read = read i % 65536) ∧
    (∀ read : Nat → Nat,
      (∀ j, 1 ≤ j → j < 20 → read j % 65536 ≠ read (j - 1) % 65536) →
      rdSocketReg16_atomic read = 0) ∧
    rdSocketReg16_atomic (fun i => if i = 5 then 4 else i) = 4 ∧
    rdSocketReg16_atomic (fun i => i) = 0 := by
  refine ⟨?_, ?_, ?_, by decide, by decide⟩
  · intro read read' h
    rw [rdSocketReg16_atomic_step, rdSocketReg16_atomic_step, h 0 (by omega)]
    exact atomicGo_congr read read' 19 1 _ (fun i h1 h2 => h i (by omega))
  · intro read i h1 h2 hag hbef
    rw [rdSocketReg16_atomic_step]
    exact atomicGo_find read 19 1 i le_rfl h1 (by omega) hag
      (fun j hj1 hj2 => hbef j hj1 hj2)
  · intro read hb
    rw [rdSocketReg16_atomic_step]
    exact atomicGo_none read 19 1 le_rfl (fun j hj1 hj2 => hb j hj1 (by omega))

/-- C5 witness: a constant read sequence stabilises at the second read. -/
theorem rdSocketReg16_atomic_spec_witness :
    rdSocketReg16_atomic (fun _ => 7) = 7 := by
  have h := rdSocketReg16_atomic_spec.2.1 (fun _ => 7) 1 le_rfl (by omega) rfl
    (fun j hj1 hj2 => absurd hj2 (by omega))
  simpa using h

end W5500

namespace W5500

/-- Helper: socketClose always leaves the raw status register of the socket
at SOCK_CLOSED — the already-closed branch keeps it, a successful DISCONNECT
poll has just observed it, and every remaining path issues the forcing CLOSE
command. -/
theorem socketClose_status (env : Env) (sock : Nat) (s : MState) :
    (socketClose env sock s).status sock = SOCK_CLOSED := by
  by_cases h0 : s.status sock = SOCK_CLOSED
  · simp [socketClose, socketStatusReg, emit, h0]
  · by_cases h1 : s.status sock = SOCK_ESTABLISHED ∨ s.status sock = SOCK_CLOSE_WAIT
    · by_cases h2 : env.pollOk s.pollIdx = true
      · simp [socketClose, socketStatusReg, socketCommand, waitSocketStatus,
          setStatus, emit, h0, h1, h2, DISCONNECT, CLOSE]
      · simp [socketClose, socketStatusReg, socketCommand, waitSocketStatus,
          setStatus, emit, h0, h1, h2, DISCONNECT, CLOSE]
    · simp [socketClose, socketStatusReg, socketCommand, setStatus, emit, h0, h1]

/-- Helper: socketClose consumes exactly one poll-outcome when the socket was
Established or CloseWait (the DISCONNECT wait), and none otherwise. -/
theorem socketClose_pollIdx (env : Env) (sock : Nat) (s : MState) :
    (socketClose env sock s).pollIdx =
      s.pollIdx +
        (if s.status sock = SOCK_ESTABLISHED ∨ s.status sock = SOCK_CLOSE_WAIT
         then 1 else 0) := by
  by_cases h0 : s.status sock = SOCK_CLOSED
  · have h1 : ¬(s.status sock = SOCK_ESTABLISHED ∨ s.status sock = SOCK_CLOSE_WAIT) := by
      rw [h0]
      decide
    simp [socketClose, socketStatusReg, emit, h0, h1, SOCK_CLOSED,
      SOCK_ESTABLISHED, SOCK_CLOSE_WAIT]
  · by_cases h1 : s.status sock = SOCK_ESTABLISHED ∨ s.status sock = SOCK_CLOSE_WAIT
    · by_cases h2 : env.pollOk s.pollIdx = true
      · simp [socketClose, socketStatusReg, socketCommand, waitSocketStatus,
          setStatus, emit, h0, h1, h2, DISCONNECT, CLOSE]
      · simp [socketClose, socketStatusReg, socketCommand, waitSocketStatus,
          setStatus, emit, h0, h1, h2, DISCONNECT, CLOSE]
    · simp [socketClose, socketStatusReg, socketCommand, setStatus, emit, h0, h1]

end W5500

namespace W5500

/-- C2: socketClose never reports failure (it returns no status at all) and
always terminates (it is a total function of the model); if the raw status is
already SOCK_CLOSED it performs nothing beyond the status read; if the raw
status is SOCK_ESTABLISHED or SOCK_CLOSE_WAIT it issues DISCONNECT and polls
for SOCK_CLOSED within the fixed timeout, returning if the poll succeeds and
issuing the unconditional CLOSE if the poll times out; in every other case it
issues the unconditional CLOSE; and for every socket index, after socketClose
returns, a subsequent socketStatus call on that socket reports Closed. -/
theorem socketClose_spec (env : Env) (sock : Nat) (s : MState) :
    (s.status sock = SOCK_CLOSED →
      socketClose env sock s = emit (.readStatus sock SOCK_CLOSED) s) ∧
    ((s.status sock = SOCK_ESTABLISHED ∨ s.status sock = SOCK_CLOSE_WAIT) →
      (env.pollOk s.pollIdx = true →
        (socketClose env sock s).trace =
          s.trace ++ [.readStatus sock (s.status sock), .cmd sock DISCONNECT,
            .poll sock SOCK_CLOSED true]) ∧
      (env.pollOk s.pollIdx = false →
        (socketClose env sock s).trace =
          s.trace ++ [.readStatus sock (s.status sock), .cmd sock DISCONNECT,
            .poll sock SOCK_CLOSED false, .cmd sock CLOSE])) ∧
    (¬(s.status sock = SOCK_CLOSED ∨ s.status sock = SOCK_ESTABLISHED ∨
        s.status sock = SOCK_CLOSE_WAIT) →
      (socketClose env sock s).trace =
        s.trace ++ [.readStatus sock (s.status sock), .cmd sock CLOSE]) ∧
    (socketStatus env sock (socketClose env sock s)).1 = SocketStatus.Closed := by
  refine ⟨?_, ?_, ?_, ?_⟩
  · intro h0
    simp [socketClose, socketStatusReg, h0]
  · intro h1
    have h0 : ¬s.status sock = SOCK_CLOSED := by
      rcases h1 with h | h <;> rw [h] <;> decide
    constructor
    · intro h2
      simp [socketClose, socketStatusReg, socketCommand, waitSocketStatus,
        setStatus, emit, h0, h1, h2, DISCONNECT, CLOSE]
    · intro h2
      simp [socketClose, socketStatusReg, socketCommand, waitSocketStatus,
        setStatus, emit, h0, h1, h2, DISCONNECT, CLOSE]
  · intro h
    push_neg at h
    obtain ⟨h0, h1, h2⟩ := h
    have hor : ¬(s.status sock = SOCK_ESTABLISHED ∨ s.status sock = SOCK_CLOSE_WAIT) := by
      simp [h1, h2]
    simp [socketClose, socketStatusReg, socketCommand, setStatus, emit, h0, hor]
  · have hs := socketClose_status env sock s
    simp [socketStatus, socketStatusReg, emit, hs]

/-- C2 witness: closing an already-closed socket in a concrete state is a
no-op beyond the status read, and the follow-up status call reports Closed. -/
theorem socketClose_spec_witness :
    socketClose ⟨1, fun _ => true, fun _ => 0, fun _ => 0, fun _ => 0, fun _ _ => 0⟩ 0
        ⟨fun _ => 0, fun _ _ => 0, 0, 0, 0, []⟩ =
      emit (.readStatus 0 SOCK_CLOSED) ⟨fun _ => 0, fun _ _ => 0, 0, 0, 0, []⟩ :=
  (socketClose_spec ⟨1, fun _ => true, fun _ => 0, fun _ => 0, fun _ => 0, fun _ _ => 0⟩ 0
    ⟨fun _ => 0, fun _ _ => 0, 0, 0, 0, []⟩).1 rfl

/-- C4: socketStatus maps the raw status byte to the external enum with
maintenance side effects: raw Init causes a CLOSE command and reports Closed;
raw CloseWait causes a DISCONNECT command and reports Closed; raw Closed,
Listening, Established and UDP-active map directly to Closed, TCP_Listen,
TCP_Connected and UDP_Open with no command; any other byte maps to Temporary
with no command issued. -/
theorem socketStatus_spec (env : Env) (sock : Nat) (s : MState) :
    (s.status sock = SOCK_CLOSED →
      socketStatus env sock s =
        (SocketStatus.Closed, emit (.readStatus sock SOCK_CLOSED) s)) ∧
    (s.status sock = SOCK_INIT →
      (socketStatus env sock s).1 = SocketStatus.Closed ∧
      (socketStatus env sock s).2.trace =
        s.trace ++ [.readStatus sock SOCK_INIT, .cmd sock CLOSE]) ∧
    (s.status sock = SOCK_LISTEN →
      socketStatus env sock s =
        (SocketStatus.TCP_Listen, emit (.readStatus sock SOCK_LISTEN) s)) ∧
    (s.status sock = SOCK_ESTABLISHED →
      socketStatus env sock s =
        (SocketStatus.TCP_Connected, emit (.readStatus sock SOCK_ESTABLISHED) s)) ∧
    (s.status sock = SOCK_CLOSE_WAIT →
      (socketStatus env sock s).1 = SocketStatus.Closed ∧
      (socketStatus env sock s).2.trace =
        s.trace ++ [.readStatus sock SOCK_CLOSE_WAIT, .cmd sock DISCONNECT]) ∧
    (s.status sock = SOCK_UDP →
      socketStatus env sock s =
        (SocketStatus.UDP_Open, emit (.readStatus sock SOCK_UDP) s)) ∧
    (s.status sock ∉ ([SOCK_CLOSED, SOCK_INIT, SOCK_LISTEN, SOCK_ESTABLISHED,
        SOCK_CLOSE_WAIT, SOCK_UDP] : List Nat) →
      socketStatus env sock s =
        (SocketStatus.Temporary, emit (.readStatus sock (s.status sock)) s)) := by
  refine ⟨?_, ?_, ?_, ?_, ?_, ?_, ?_⟩
  · intro h
    simp [socketStatus, socketStatusReg, h]
  · intro h
    simp [socketStatus, socketStatusReg, socketCommand, setStatus, emit, h,
      SOCK_CLOSED, SOCK_INIT, CLOSE]
  · intro h
    simp [socketStatus, socketStatusReg, emit, h, SOCK_CLOSED, SOCK_INIT,
      SOCK_LISTEN]
  · intro h
    simp [socketStatus, socketStatusReg, emit, h, SOCK_CLOSED, SOCK_INIT,
      SOCK_LISTEN, SOCK_ESTABLISHED]
  · intro h
    simp [socketStatus, socketStatusReg, socketCommand, setStatus, emit, h,
      SOCK_CLOSED, SOCK_INIT, SOCK_LISTEN, SOCK_ESTABLISHED, SOCK_CLOSE_WAIT,
      DISCONNECT, CLOSE]
  · intro h
    simp [socketStatus, socketStatusReg, emit, h, SOCK_CLOSED, SOCK_INIT,
      SOCK_LISTEN, SOCK_ESTABLISHED, SOCK_CLOSE_WAIT, SOCK_UDP]
  · intro h
    simp [SOCK_CLOSED, SOCK_INIT, SOCK_LISTEN, SOCK_ESTABLISHED,
      SOCK_CLOSE_WAIT, SOCK_UDP] at h
    obtain ⟨h0, h1, h2, h3, h4, h5⟩ := h
    simp [socketStatus, socketStatusReg, emit, h0, h1, h2, h3, h4, h5,
      SOCK_CLOSED, SOCK_INIT, SOCK_LISTEN, SOCK_ESTABLISHED, SOCK_CLOSE_WAIT,
      SOCK_UDP]

/-- C4 witness: a transitional raw status byte (0x15, SYNSENT) maps to
Temporary with no command issued. -/
theorem socketStatus_spec_witness :
    socketStatus ⟨1, fun _ => true, fun _ => 0, fun _ => 0, fun _ => 0, fun _ _ => 0⟩ 0
        ⟨fun _ => 0x15, fun _ _ => 0, 0, 0, 0, []⟩ =
      (SocketStatus.Temporary,
        emit (.readStatus 0 0x15) ⟨fun _ => 0x15, fun _ _ => 0, 0, 0, 0, []⟩) := by
  have h := (socketStatus_spec
    ⟨1, fun _ => true, fun _ => 0, fun _ => 0, fun _ => 0, fun _ _ => 0⟩ 0
    ⟨fun _ => 0x15, fun _ _ => 0, 0, 0, 0, []⟩).2.2.2.2.2.2 (by decide)
  exact h

end W5500

namespace W5500

/-- Helper: emit changes only the trace. -/
@[simp] theorem emit_status (e : Event) (s : MState) : (emit e s).status = s.status := rfl

/-- Helper: emit preserves the register file. -/
@[simp] theorem emit_regs (e : Event) (s : MState) : (emit e s).regs = s.regs := rfl

/-- Helper: emit preserves the poll cursor. -/
@[simp] theorem emit_pollIdx (e : Event) (s : MState) : (emit e s).pollIdx = s.pollIdx := rfl

/-- Helper: emit preserves the command cursor. -/
@[simp] theorem emit_cmdIdx (e : Event) (s : MState) : (emit e s).cmdIdx = s.cmdIdx := rfl

/-- Helper: emit preserves the counter-read cursor. -/
@[simp] theorem emit_r16Idx (e : Event) (s : MState) : (emit e s).r16Idx = s.r16Idx := rfl

/-- Helper: emit appends its event to the trace. -/
@[simp] theorem emit_trace (e : Event) (s : MState) : (emit e s).trace = s.trace ++ [e] := rfl

/-- Helper: wrSocketReg preserves the poll cursor. -/
@[simp] theorem wrSocketReg_pollIdx (sock off v : Nat) (s : MState) :
    (wrSocketReg sock off v s).pollIdx = s.pollIdx := rfl

/-- Helper: wrSocketReg preserves the raw status registers. -/
@[simp] theorem wrSocketReg_status (sock off v : Nat) (s : MState) :
    (wrSocketReg sock off v s).status = s.status := rfl

/-- Helper: wrSocketReg appends a single-byte write event. -/
@[simp] theorem wrSocketReg_trace (sock off v : Nat) (s : MState) :
    (wrSocketReg sock off v s).trace = s.trace ++ [.writeReg sock off (v % 256)] := rfl

/-- Helper: socketCommand preserves the poll cursor. -/
@[simp] theorem socketCommand_pollIdx (env : Env) (sock c : Nat) (s : MState) :
    (socketCommand env sock c s).pollIdx = s.pollIdx := by
  simp only [socketCommand, setStatus, emit]
  split <;> rfl

/-- Helper: socketCommand appends a command event. -/
@[simp] theorem socketCommand_trace (env : Env) (sock c : Nat) (s : MState) :
    (socketCommand env sock c s).trace = s.trace ++ [.cmd sock c] := by
  simp only [socketCommand, setStatus, emit]
  split <;> rfl

/-- Helper: socketCommand preserves the register file. -/
@[simp] theorem socketCommand_regs (env : Env) (sock c : Nat) (s : MState) :
    (socketCommand env sock c s).regs = s.regs := by
  simp only [socketCommand, setStatus, emit]
  split <;> rfl

/-- Helper: socketCommand preserves the counter-read cursor. -/
@[simp] theorem socketCommand_r16Idx (env : Env) (sock c : Nat) (s : MState) :
    (socketCommand env sock c s).r16Idx = s.r16Idx := by
  simp only [socketCommand, setStatus, emit]
  split <;> rfl

/-- Helper: the poll outcome of waitSocketStatus is the environment's verdict
at the current poll cursor. -/
@[simp] theorem waitSocketStatus_fst (env : Env) (sock target : Nat) (s : MState) :
    (waitSocketStatus env sock target s).1 = env.pollOk s.pollIdx := rfl

/-- Helper: waitSocketStatus advances the poll cursor by one. -/
@[simp] theorem waitSocketStatus_pollIdx (env : Env) (sock target : Nat) (s : MState) :
    (waitSocketStatus env sock target s).2.pollIdx = s.pollIdx + 1 := by
  simp only [waitSocketStatus, setStatus, emit]

/-- Helper: waitSocketStatus appends one poll event carrying its outcome. -/
@[simp] theorem waitSocketStatus_trace (env : Env) (sock target : Nat) (s : MState) :
    (waitSocketStatus env sock target s).2.trace =
      s.trace ++ [.poll sock target (env.pollOk s.pollIdx)] := by
  simp only [waitSocketStatus, setStatus, emit]
  split <;> rfl

/-- Helper: waitSocketStatus preserves the register file. -/
@[simp] theorem waitSocketStatus_regs (env : Env) (sock target : Nat) (s : MState) :
    (waitSocketStatus env sock target s).2.regs = s.regs := by
  simp only [waitSocketStatus, setStatus, emit]
  split <;> rfl

end W5500

namespace W5500

/-- C3 counterexample: socketKeepOpen on a socket whose raw status is Closed
performs a full re-open, and with the link up that re-open invokes the
blocking poll primitive — the trace of the call contains a poll event, so it
is false that the blocking poll primitive is never invoked during the call. -/
theorem socketKeepOpen_poll_counterexample :
    Event.poll 0 SOCK_UDP true ∈ (socketKeepOpen envUp 0 .UDP stZero).trace := by
  decide

/-- C3 amended: socketKeepOpen issues at most one non-waiting command and
never polls in every case other than Closed/Init — raw CloseWait triggers
exactly one fire-and-forget DISCONNECT with no poll; Listening, Established
and UDP-active are left untouched; any other (transitional) code is left
untouched — but raw Closed or Init triggers a full re-open via socketOpen
with the given mode, and that re-open may invoke the blocking poll
primitive. -/
theorem socketKeepOpen_spec (env : Env) (sock : Nat) (mode : SocketMode) (s : MState) :
    (s.status sock = SOCK_CLOSE_WAIT →
      (socketKeepOpen env sock mode s).trace =
        s.trace ++ [.readStatus sock SOCK_CLOSE_WAIT, .cmd sock DISCONNECT]) ∧
    ((s.status sock = SOCK_LISTEN ∨ s.status sock = SOCK_ESTABLISHED ∨
        s.status sock = SOCK_UDP) →
      (socketKeepOpen env sock mode s).trace =
        s.trace ++ [.readStatus sock (s.status sock)]) ∧
    (s.status sock ∉ ([SOCK_CLOSED, SOCK_INIT, SOCK_LISTEN, SOCK_ESTABLISHED,
        SOCK_CLOSE_WAIT, SOCK_UDP] : List Nat) →
      (socketKeepOpen env sock mode s).trace =
        s.trace ++ [.readStatus sock (s.status sock)]) ∧
    ((s.status sock = SOCK_CLOSED ∨ s.status sock = SOCK_INIT) →
      socketKeepOpen env sock mode s =
        (socketOpen env sock mode (emit (.readStatus sock (s.status sock)) s)).2) := by
  refine ⟨?_, ?_, ?_, ?_⟩
  · intro h
    simp [socketKeepOpen, socketStatusReg, h, SOCK_CLOSED, SOCK_INIT,
      SOCK_LISTEN, SOCK_ESTABLISHED, SOCK_CLOSE_WAIT, SOCK_UDP]
  · intro h
    rcases h with h | h | h <;>
      simp [socketKeepOpen, socketStatusReg, h, SOCK_CLOSED, SOCK_INIT,
        SOCK_LISTEN, SOCK_ESTABLISHED, SOCK_CLOSE_WAIT, SOCK_UDP]
  · intro h
    simp [SOCK_CLOSED, SOCK_INIT, SOCK_LISTEN, SOCK_ESTABLISHED,
      SOCK_CLOSE_WAIT, SOCK_UDP] at h
    obtain ⟨h0, h1, h2, h3, h4, h5⟩ := h
    simp [socketKeepOpen, socketStatusReg, h0, h1, h2, h3, h4, h5,
      SOCK_CLOSED, SOCK_INIT, SOCK_LISTEN, SOCK_ESTABLISHED, SOCK_CLOSE_WAIT,
      SOCK_UDP]
  · intro h
    rcases h with h | h <;>
      simp [socketKeepOpen, socketStatusReg, h, SOCK_CLOSED, SOCK_INIT]

/-- C3 amended witness: on a socket in CloseWait the call issues exactly one
DISCONNECT and no poll event appears. -/
theorem socketKeepOpen_spec_witness :
    (socketKeepOpen envUp 0 .UDP ⟨fun _ => 0x1C, fun _ _ => 0, 0, 0, 0, []⟩).trace =
      [.readStatus 0 SOCK_CLOSE_WAIT, .cmd 0 DISCONNECT] := by
  have h := (socketKeepOpen_spec envUp 0 .UDP
    ⟨fun _ => 0x1C, fun _ _ => 0, 0, 0, 0, []⟩).1 rfl
  simpa using h

end W5500

namespace W5500

/-- C1: socketOpen returns false immediately when the PHY link bit (bit 0 of
the PHY configuration register) reads 0, performing no register access beyond
the single PHY status read; it returns true only if the final status poll
observed the mode-appropriate terminal status (SOCK_UDP for UDP, SOCK_LISTEN
for TCP-server, SOCK_ESTABLISHED for TCP-client) within the timeout window —
the trace ends with that successful poll; with the link up every failure
forces a close of the socket (the returned state is a socketClose run); and
with the link up the call succeeds exactly when every status poll of the open
flow (one for UDP, two for TCP) succeeded, so a timeout at any stage forces a
false return. -/
theorem socketOpen_spec (env : Env) (sock : Nat) (mode : SocketMode) (s : MState) :
    (env.phy % 2 = 0 →
      socketOpen env sock mode s =
        (false, emit (.readCommon phy_config (env.phy % 256)) s)) ∧
    ((socketOpen env sock mode s).1 = true →
      ∃ t, (socketOpen env sock mode s).2.trace =
        t ++ [.poll sock (expectedState mode) true]) ∧
    (env.phy % 2 ≠ 0 → (socketOpen env sock mode s).1 = false →
      ∃ s', (socketOpen env sock mode s).2 = socketClose env sock s') ∧
    (env.phy % 2 ≠ 0 →
      ((socketOpen env sock mode s).1 = true ↔
        (match mode with
         | .UDP => env.pollOk (firstOpenPoll sock s) = true
         | .TCP_Server =>
             env.pollOk (firstOpenPoll sock s) = true ∧
             env.pollOk (firstOpenPoll sock s + 1) = true
         | .TCP_Client =>
             env.pollOk (firstOpenPoll sock s) = true ∧
             env.pollOk (firstOpenPoll sock s + 1) = true))) := by
  have hfp : (socketClose env sock (emit (.readCommon phy_config (env.phy % 256)) s)).pollIdx
      = firstOpenPoll sock s := by
    rw [socketClose_pollIdx]
    simp [firstOpenPoll]
  refine ⟨?_, ?_, ?_, ?_⟩
  · intro h
    have hp : env.phy % 256 % 2 = 0 := by omega
    simp [socketOpen, rdPhyConfig, hp]
  · intro htrue
    by_cases hp : env.phy % 256 % 2 = 0
    · simp [socketOpen, rdPhyConfig, hp] at htrue
    · cases mode with
      | UDP =>
        by_cases hw : env.pollOk (socketClose env sock
            (emit (.readCommon phy_config (env.phy % 256)) s)).pollIdx = true
        · refine ⟨(socketCommand env sock OPEN (wrSocketReg sock
            socket_mode_register (modeValue .UDP) (socketClose env sock
            (emit (.readCommon phy_config (env.phy % 256)) s)))).trace, ?_⟩
          simp [socketOpen, rdPhyConfig, hp, hw, expectedState]
        · simp [socketOpen, rdPhyConfig, hp, hw] at htrue
      | TCP_Server =>
        by_cases hw : env.pollOk (socketClose env sock
            (emit (.readCommon phy_config (env.phy % 256)) s)).pollIdx = true
        · by_cases hw2 : env.pollOk ((socketClose env sock
              (emit (.readCommon phy_config (env.phy % 256)) s)).pollIdx + 1) = true
          · refine ⟨(socketCommand env sock LISTEN (waitSocketStatus env sock
              SOCK_INIT (socketCommand env sock OPEN (wrSocketReg sock
              socket_mode_register (modeValue .TCP_Server) (socketClose env sock
              (emit (.readCommon phy_config (env.phy % 256)) s))))).2).trace, ?_⟩
            simp [socketOpen, rdPhyConfig, hp, hw, hw2, expectedState]
          · simp [socketOpen, rdPhyConfig, hp, hw, hw2] at htrue
        · simp [socketOpen, rdPhyConfig, hp, hw] at htrue
      | TCP_Client =>
        by_cases hw : env.pollOk (socketClose env sock
            (emit (.readCommon phy_config (env.phy % 256)) s)).pollIdx = true
        · by_cases hw2 : env.pollOk ((socketClose env sock
              (emit (.readCommon phy_config (env.phy % 256)) s)).pollIdx + 1) = true
          · refine ⟨(socketCommand env sock CONNECT (waitSocketStatus env sock
              SOCK_INIT (socketCommand env sock OPEN (wrSocketReg sock
              socket_mode_register (modeValue .TCP_Client) (socketClose env sock
              (emit (.readCommon phy_config (env.phy % 256)) s))))).2).trace, ?_⟩
            simp [socketOpen, rdPhyConfig, hp, hw, hw2, expectedState]
          · simp [socketOpen, rdPhyConfig, hp, hw, hw2] at htrue
        · simp [socketOpen, rdPhyConfig, hp, hw] at htrue
  · intro hlink hfalse
    have hp : ¬env.phy % 256 % 2 = 0 := by omega
    cases mode with
    | UDP =>
      by_cases hw : env.pollOk (socketClose env sock
          (emit (.readCommon phy_config (env.phy % 256)) s)).pollIdx = true
      · simp [socketOpen, rdPhyConfig, hp, hw] at hfalse
      · refine ⟨(waitSocketStatus env sock SOCK_UDP (socketCommand env sock OPEN
          (wrSocketReg sock socket_mode_register (modeValue .UDP)
          (socketClose env sock (emit (.readCommon phy_config
          (env.phy % 256)) s))))).2, ?_⟩
        simp [socketOpen, rdPhyConfig, hp, hw]
    | TCP_Server =>
      by_cases hw : env.pollOk (socketClose env sock
          (emit (.readCommon phy_config (env.phy % 256)) s)).pollIdx = true
      · by_cases hw2 : env.pollOk ((socketClose env sock
            (emit (.readCommon phy_config (env.phy % 256)) s)).pollIdx + 1) = true
        · simp [socketOpen, rdPhyConfig, hp, hw, hw2] at hfalse
        · refine ⟨(waitSocketStatus env sock SOCK_LISTEN (socketCommand env sock
            LISTEN (waitSocketStatus env sock SOCK_INIT (socketCommand env sock
            OPEN (wrSocketReg sock socket_mode_register (modeValue .TCP_Server)
            (socketClose env sock (emit (.readCommon phy_config
            (env.phy % 256)) s))))).2)).2, ?_⟩
          simp [socketOpen, rdPhyConfig, hp, hw, hw2]
      · refine ⟨(waitSocketStatus env sock SOCK_INIT (socketCommand env sock OPEN
          (wrSocketReg sock socket_mode_register (modeValue .TCP_Server)
          (socketClose env sock (emit (.readCommon phy_config
          (env.phy % 256)) s))))).2, ?_⟩
        simp [socketOpen, rdPhyConfig, hp, hw]
    | TCP_Client =>
      by_cases hw : env.pollOk (socketClose env sock
          (emit (.readCommon phy_config (env.phy % 256)) s)).pollIdx = true
      · by_cases hw2 : env.pollOk ((socketClose env sock
            (emit (.readCommon phy_config (env.phy % 256)) s)).pollIdx + 1) = true
        · simp [socketOpen, rdPhyConfig, hp, hw, hw2] at hfalse
        · refine ⟨(waitSocketStatus env sock SOCK_ESTABLISHED (socketCommand env sock
            CONNECT (waitSocketStatus env sock SOCK_INIT (socketCommand env sock
            OPEN (wrSocketReg sock socket_mode_register (modeValue .TCP_Client)
            (socketClose env sock (emit (.readCommon phy_config
            (env.phy % 256)) s))))).2)).2, ?_⟩
          simp [socketOpen, rdPhyConfig, hp, hw, hw2]
      · refine ⟨(waitSocketStatus env sock SOCK_INIT (socketCommand env sock OPEN
          (wrSocketReg sock socket_mode_register (modeValue .TCP_Client)
          (socketClose env sock (emit (.readCommon phy_config
          (env.phy % 256)) s))))).2, ?_⟩
        simp [socketOpen, rdPhyConfig, hp, hw]
  · intro hlink
    have hp : ¬env.phy % 256 % 2 = 0 := by omega
    cases mode with
    | UDP =>
      by_cases hw : env.pollOk (socketClose env sock
          (emit (.readCommon phy_config (env.phy % 256)) s)).pollIdx = true
      · simp [socketOpen, rdPhyConfig, hp, hw, ← hfp]
      · simp [socketOpen, rdPhyConfig, hp, hw, ← hfp]
    | TCP_Server =>
      by_cases hw : env.pollOk (socketClose env sock
          (emit (.readCommon phy_config (env.phy % 256)) s)).pollIdx = true
      · by_cases hw2 : env.pollOk ((socketClose env sock
            (emit (.readCommon phy_config (env.phy % 256)) s)).pollIdx + 1) = true
        · simp [socketOpen, rdPhyConfig, hp, hw, hw2, ← hfp]
        · simp [socketOpen, rdPhyConfig, hp, hw, hw2, ← hfp]
      · simp [socketOpen, rdPhyConfig, hp, hw, ← hfp]
    | TCP_Client =>
      by_cases hw : env.pollOk (socketClose env sock
          (emit (.readCommon phy_config (env.phy % 256)) s)).pollIdx = true
      · by_cases hw2 : env.pollOk ((socketClose env sock
            (emit (.readCommon phy_config (env.phy % 256)) s)).pollIdx + 1) = true
        · simp [socketOpen, rdPhyConfig, hp, hw, hw2, ← hfp]
        · simp [socketOpen, rdPhyConfig, hp, hw, hw2, ← hfp]
      · simp [socketOpen, rdPhyConfig, hp, hw, ← hfp]

end W5500

namespace W5500

/-- C1 witness: with the link up, every poll succeeding and the socket
initially closed, opening socket 0 as UDP succeeds. -/
theorem socketOpen_spec_witness :
    (socketOpen envUp 0 .UDP stZero).1 = true := by
  have h := (socketOpen_spec envUp 0 .UDP stZero).2.2.2 (by decide)
  exact h.mpr (by decide)

/-- Helper: the traced atomic read only ever appends to the trace. -/
theorem atomicGoT_trace_ext (env : Env) (sock off : Nat) (fuel : Nat) :
    ∀ tries last s, ∃ rest,
      (atomicGoT env sock off fuel tries last s).2.trace = s.trace ++ rest := by
  induction fuel with
  | zero =>
    intro tries last s
    exact ⟨[], by simp [atomicGoT]⟩
  | succ f ih =>
    intro tries last s
    simp only [atomicGoT]
    split
    · exact ⟨[.read16 sock off (env.reg16 s.r16Idx % 65536)], by simp⟩
    · obtain ⟨rest, hrest⟩ := ih (tries + 1) (env.reg16 s.r16Idx % 65536)
        (emit (.read16 sock off (env.reg16 s.r16Idx % 65536))
          { s with r16Idx := s.r16Idx + 1 })
      refine ⟨.read16 sock off (env.reg16 s.r16Idx % 65536) :: rest, ?_⟩
      rw [hrest]
      simp

/-- Helper: the 20-attempt traced atomic read starts with one counter-read
event and only appends events after it. -/
theorem rdSocketReg16_atomicT_trace (env : Env) (sock off : Nat) (s : MState) :
    ∃ rest, (rdSocketReg16_atomicT env sock off s).2.trace =
      s.trace ++ [.read16 sock off (env.reg16 s.r16Idx % 65536)] ++ rest := by
  obtain ⟨rest, hrest⟩ := atomicGoT_trace_ext env sock off 19 1
    (env.reg16 s.r16Idx % 65536)
    (emit (.read16 sock off (env.reg16 s.r16Idx % 65536))
      { s with r16Idx := s.r16Idx + 1 })
  refine ⟨rest, ?_⟩
  have hstep : rdSocketReg16_atomicT env sock off s =
      atomicGoT env sock off 19 1 (env.reg16 s.r16Idx % 65536)
        (emit (.read16 sock off (env.reg16 s.r16Idx % 65536))
          { s with r16Idx := s.r16Idx + 1 }) := rfl
  rw [hstep, hrest]
  simp

/-- C9: sendAvailable and receiveAvailable are not side-effect-free queries:
raw Init makes each of them issue a CLOSE command and return 0; raw CloseWait
makes each issue a DISCONNECT command and return 0; the free-size or
received-size counter register is read only when the raw status is
Established or UDP-active; and in every other raw state the return value is 0
with no counter read (the trace is exactly the status read plus the
maintenance command, when there is one). -/
theorem availability_spec (env : Env) (sock : Nat) (s : MState) :
    (s.status sock = SOCK_INIT →
      (sendAvailable env sock s).1 = 0 ∧
      (sendAvailable env sock s).2.trace =
        s.trace ++ [.readStatus sock SOCK_INIT, .cmd sock CLOSE] ∧
      (receiveAvailable env sock s).1 = 0 ∧
      (receiveAvailable env sock s).2.trace =
        s.trace ++ [.readStatus sock SOCK_INIT, .cmd sock CLOSE]) ∧
    (s.status sock = SOCK_CLOSE_WAIT →
      (sendAvailable env sock s).1 = 0 ∧
      (sendAvailable env sock s).2.trace =
        s.trace ++ [.readStatus sock SOCK_CLOSE_WAIT, .cmd sock DISCONNECT] ∧
      (receiveAvailable env sock s).1 = 0 ∧
      (receiveAvailable env sock s).2.trace =
        s.trace ++ [.readStatus sock SOCK_CLOSE_WAIT, .cmd sock DISCONNECT]) ∧
    ((s.status sock = SOCK_ESTABLISHED ∨ s.status sock = SOCK_UDP) →
      (∃ rest, (sendAvailable env sock s).2.trace =
        s.trace ++ [.readStatus sock (s.status sock),
          .read16 sock tx_free_size (env.reg16 s.r16Idx % 65536)] ++ rest) ∧
      (∃ rest, (receiveAvailable env sock s).2.trace =
        s.trace ++ [.readStatus sock (s.status sock),
          .read16 sock rx_received_size (env.reg16 s.r16Idx % 65536)] ++ rest)) ∧
    (s.status sock ∉ ([SOCK_INIT, SOCK_CLOSE_WAIT, SOCK_ESTABLISHED,
        SOCK_UDP] : List Nat) →
      (sendAvailable env sock s).1 = 0 ∧
      (sendAvailable env sock s).2.trace =
        s.trace ++ [.readStatus sock (s.status sock)] ∧
      (receiveAvailable env sock s).1 = 0 ∧
      (receiveAvailable env sock s).2.trace =
        s.trace ++ [.readStatus sock (s.status sock)]) := by
  refine ⟨?_, ?_, ?_, ?_⟩
  · intro h
    refine ⟨?_, ?_, ?_, ?_⟩ <;>
      simp [sendAvailable, receiveAvailable, socketConnected, socketStatus,
        socketStatusReg, h, SOCK_CLOSED, SOCK_INIT, CLOSE]
  · intro h
    refine ⟨?_, ?_, ?_, ?_⟩ <;>
      simp [sendAvailable, receiveAvailable, socketConnected, socketStatus,
        socketStatusReg, h, SOCK_CLOSED, SOCK_INIT, SOCK_LISTEN,
        SOCK_ESTABLISHED, SOCK_CLOSE_WAIT, DISCONNECT]
  · intro h
    constructor
    · have hrun : (sendAvailable env sock s).2 =
          (rdSocketReg16_atomicT env sock tx_free_size
            (emit (.readStatus sock (s.status sock)) s)).2 := by
        rcases h with h | h <;>
          simp [sendAvailable, socketConnected, socketStatus, socketStatusReg,
            h, SOCK_CLOSED, SOCK_INIT, SOCK_LISTEN, SOCK_ESTABLISHED,
            SOCK_CLOSE_WAIT, SOCK_UDP]
      obtain ⟨rest, hrest⟩ := rdSocketReg16_atomicT_trace env sock tx_free_size
        (emit (.readStatus sock (s.status sock)) s)
      refine ⟨rest, ?_⟩
      rw [hrun, hrest]
      simp
    · have hrun : (receiveAvailable env sock s).2 =
          (rdSocketReg16_atomicT env sock rx_received_size
            (emit (.readStatus sock (s.status sock)) s)).2 := by
        rcases h with h | h <;>
          simp [receiveAvailable, socketConnected, socketStatus, socketStatusReg,
            h, SOCK_CLOSED, SOCK_INIT, SOCK_LISTEN, SOCK_ESTABLISHED,
            SOCK_CLOSE_WAIT, SOCK_UDP]
      obtain ⟨rest, hrest⟩ := rdSocketReg16_atomicT_trace env sock rx_received_size
        (emit (.readStatus sock (s.status sock)) s)
      refine ⟨rest, ?_⟩
      rw [hrun, hrest]
      simp
  · intro h
    simp [SOCK_INIT, SOCK_CLOSE_WAIT, SOCK_ESTABLISHED, SOCK_UDP] at h
    obtain ⟨h0, h1, h2, h3⟩ := h
    by_cases h4 : s.status sock = 0
    · refine ⟨?_, ?_, ?_, ?_⟩ <;>
        simp [sendAvailable, receiveAvailable, socketConnected, socketStatus,
          socketStatusReg, h4, SOCK_CLOSED, SOCK_INIT, SOCK_LISTEN,
          SOCK_ESTABLISHED, SOCK_CLOSE_WAIT, SOCK_UDP]
    · by_cases h5 : s.status sock = 20
      · refine ⟨?_, ?_, ?_, ?_⟩ <;>
          simp [sendAvailable, receiveAvailable, socketConnected, socketStatus,
            socketStatusReg, h5, SOCK_CLOSED, SOCK_INIT, SOCK_LISTEN,
            SOCK_ESTABLISHED, SOCK_CLOSE_WAIT, SOCK_UDP]
      · refine ⟨?_, ?_, ?_, ?_⟩ <;>
          simp [sendAvailable, receiveAvailable, socketConnected, socketStatus,
            socketStatusReg, h0, h1, h2, h3, h4, h5, SOCK_CLOSED, SOCK_INIT,
            SOCK_LISTEN, SOCK_ESTABLISHED, SOCK_CLOSE_WAIT, SOCK_UDP]
  
/-- C9 witness: on a socket whose raw status is Init the availability query
returns 0 and its trace is the status read followed by the CLOSE command. -/
theorem availability_spec_witness :
    (sendAvailable envUp 0 ⟨fun _ => 0x13, fun _ _ => 0, 0, 0, 0, []⟩).1 = 0 := by
  exact ((availability_spec envUp 0 ⟨fun _ => 0x13, fun _ _ => 0, 0, 0, 0, []⟩).1 rfl).1

end W5500

namespace W5500

/-- C7: send clamps the requested length to the current send-availability; a
clamped length of 0 returns 0 having performed nothing beyond the
availability query itself (no buffer write, no pointer read or write-back,
no SEND command); otherwise it writes exactly the clamped number of bytes at
the TX write pointer, advances the pointer by that length using wrapping
16-bit addition, writes the pointer back, issues SEND and returns the
clamped length; and at a concrete state with the TX write pointer at 0xFFF8
and 16 bytes sent the written-back pointer is 0x0008 (wrap mod 2^16). -/
theorem send_spec (env : Env) (sock : Nat) (data : List Nat) (len : Nat) (s : MState) :
    (min len (sendAvailable env sock s).1 = 0 →
      send env sock data len s = (0, (sendAvailable env sock s).2)) ∧
    (min len (sendAvailable env sock s).1 ≠ 0 →
      (send env sock data len s).1 = min len (sendAvailable env sock s).1 ∧
      (send env sock data len s).2.trace =
        (sendAvailable env sock s).2.trace ++
          [.read16 sock tx_write_pointer
             (rd16val (sendAvailable env sock s).2 sock tx_write_pointer),
           .bufWrite sock (rd16val (sendAvailable env sock s).2 sock tx_write_pointer)
             (List.take (min len (sendAvailable env sock s).1) data),
           .write16 sock tx_write_pointer
             ((rd16val (sendAvailable env sock s).2 sock tx_write_pointer +
               min len (sendAvailable env sock s).1) % 65536),
           .cmd sock SEND]) ∧
    (len ≤ data.length →
      (List.take (min len (sendAvailable env sock s).1) data).length =
        min len (sendAvailable env sock s).1) ∧
    Event.write16 0 tx_write_pointer 0x0008 ∈
      (send envAvail 0 (List.replicate 16 0) 16 stEstab).2.trace := by
  refine ⟨?_, ?_, ?_, ?_⟩
  · intro h
    simp [send, h]
  · intro h
    refine ⟨?_, ?_⟩ <;> simp [send, h, rdSocketReg16, wrSocketReg16]
  · intro h
    simp only [List.length_take]
    omega
  · decide

/-- C7 witness: a request clamped to zero is a no-op returning 0. -/
theorem send_spec_witness :
    send envUp 0 [] 0 stZero = (0, (sendAvailable envUp 0 stZero).2) :=
  (send_spec envUp 0 [] 0 stZero).1 (by simp)

/-- C6: receive with header stripping: the requested length is first clamped
to receive-availability; a clamped length of 0 returns 0; a nonzero clamped
length below 8 returns 0 consuming nothing (no header or payload read, no
pointer write-back, no RECV command — only the pointer read happened);
otherwise the 8-byte header at the read pointer is consumed, its last two
bytes big-endian declare the payload length L, exactly min(clamped - 8, L)
payload bytes are delivered, the stored read pointer is advanced by 8 plus
the delivered payload length (wrapping mod 2^16), written back, and the RECV
command issued. -/
theorem receive_spec (env : Env) (sock : Nat) (len : Nat) (s : MState) :
    (min len (receiveAvailable env sock s).1 = 0 →
      receive env sock len true s = (0, (receiveAvailable env sock s).2)) ∧
    (min len (receiveAvailable env sock s).1 ≠ 0 →
      min len (receiveAvailable env sock s).1 < 8 →
      (receive env sock len true s).1 = 0 ∧
      (receive env sock len true s).2.trace =
        (receiveAvailable env sock s).2.trace ++
          [.read16 sock rx_read_pointer
            (rd16val (receiveAvailable env sock s).2 sock rx_read_pointer)]) ∧
    (∀ rp L, rp = rd16val (receiveAvailable env sock s).2 sock rx_read_pointer →
      L = (env.rx sock ((rp + 6) % 65536) % 256) <<< 8 |||
          (env.rx sock ((rp + 7) % 65536) % 256) →
      8 ≤ min len (receiveAvailable env sock s).1 →
      (receive env sock len true s).1 =
        min (min len (receiveAvailable env sock s).1 - 8) L ∧
      (receive env sock len true s).2.trace =
        (receiveAvailable env sock s).2.trace ++
          [.read16 sock rx_read_pointer rp,
           .bufRead sock rp 8,
           .bufRead sock ((rp + 8) % 65536)
             (min (min len (receiveAvailable env sock s).1 - 8) L),
           .write16 sock rx_read_pointer
             ((rp + 8 + min (min len (receiveAvailable env sock s).1 - 8) L) % 65536),
           .cmd sock RECV]) := by
  refine ⟨?_, ?_, ?_⟩
  · intro h
    simp [receive, h]
  · intro h h8
    have hne : ¬min len (receiveAvailable env sock s).1 = 0 := h
    refine ⟨?_, ?_⟩ <;>
      simp [receive, hne, h8, rdSocketReg16]
  · intro rp L hrp hL h8
    have hne : ¬min len (receiveAvailable env sock s).1 = 0 := by omega
    have hlt : ¬min len (receiveAvailable env sock s).1 < 8 := by omega
    have h6 : (readRxBytes env sock rp 8)[6]?.getD 0 =
        env.rx sock ((rp + 6) % 65536) % 256 := rfl
    have h7 : (readRxBytes env sock rp 8)[7]?.getD 0 =
        env.rx sock ((rp + 7) % 65536) % 256 := rfl
    subst hrp
    subst hL
    refine ⟨?_, ?_⟩ <;>
      simp [receive, hne, hlt, rdSocketReg16, wrSocketReg16, h6, h7,
        Nat.mod_add_mod]
  
/-- C6 witness: a request clamped to zero receives nothing and performs
nothing beyond the availability query. -/
theorem receive_spec_witness :
    receive envUp 0 0 true stZero = (0, (receiveAvailable envUp 0 stZero).2) :=
  (receive_spec envUp 0 0 stZero).1 (by simp)

end W5500
